import Mathlib

/-!
Verification of the tool-use agent orchestration engine of
`subserver/pyserver/apis/langchain/agent.py` (and its caller
`langchain_service.py`).

The Python code is shallowly embedded: JSON/Python values become the
inductive `JValue`; dicts become association lists (`Obj`) that are
duplicate-free when produced by the JSON parser; fallible code returns
`Except`; the LangGraph plan → act → bump loop becomes the structural
recursion `agent_loop` over the script of model responses, with the two
asynchronous collaborators (`ask_model`, `invoke_tool`) modelled as
explicit scripts of results.  JSON numbers are modelled as integers
(no claim involves fractional numbers).
-/

namespace Agent

/-- A JSON-like Python value: the values that flow through the agent
(`json.loads` output, tool results, message fields). -/
inductive JValue where
  | null
  | bool (b : Bool)
  | num (n : Int)
  | str (s : String)
  | arr (items : List JValue)
  | obj (fields : List (String × JValue))

/-- A Python dict with string keys, as an association list.  Dicts built by
the JSON parser carry each key at most once (later duplicate keys in the
JSON text overwrite the value, keeping first position, as in CPython). -/
abbrev Obj := List (String × JValue)

/-- `d.get(k)`: first binding of `k` (parser-built objects are
duplicate-free, so this is the dict lookup). -/
def objGet (fields : Obj) (k : String) : Option JValue :=
  (fields.find? (fun p => p.1 = k)).map (fun p => p.2)

/-- Python truthiness (`bool(v)`) on the modelled values: `None`, `False`,
`0`, `""`, `[]` and `{}` are falsy, everything else truthy. -/
def JValue.truthy : JValue → Bool
  | .null => false
  | .bool b => b
  | .num n => n != 0
  | .str s => s ≠ ""
  | .arr items => !items.isEmpty
  | .obj fields => !fields.isEmpty

/-- The Python idiom `d.get(k) or dflt`: the stored value when present and
truthy, otherwise `dflt` (a missing key yields `None`, which is falsy). -/
def pyGetOr (fields : Obj) (k : String) (dflt : JValue) : JValue :=
  match objGet fields k with
  | some v => if v.truthy then v else dflt
  | none => dflt

/-- Python whitespace, the character class `str.strip()` removes. -/
def isPyWs (c : Char) : Bool :=
  c = ' ' || c = '\t' || c = '\n' || c = '\r' || c = '\x0b' || c = '\x0c'

/-- Python `s.strip()`: drops leading and trailing whitespace. -/
def pyStrip (s : String) : String :=
  String.mk (((s.data.dropWhile isPyWs).reverse.dropWhile isPyWs).reverse)

/-- Python `s.lower()` on the ASCII range the decision tags use. -/
def pyLower (s : String) : String :=
  String.mk (s.data.map Char.toLower)

/-- Python `s.startswith("{")`. -/
def startsWithBrace (s : String) : Bool :=
  match s.data with
  | c :: _ => c = '\x7b'
  | [] => false

/-- CPython `repr` of a string: single quotes (written as escapes).
Inner escaping is not modelled; no claim evaluates it. -/
def pyReprStr (s : String) : String := "\x27" ++ s ++ "\x27"

mutual

/-- CPython `str(v)` on modelled values (`f"{v}"`, `str(...)` coercions in
the source): identity on strings, `True`/`False`/`None` for the constants,
decimal for numbers, `repr`-style rendering for containers. -/
def pyStr : JValue → String
  | .null => "None"
  | .bool true => "True"
  | .bool false => "False"
  | .num n => toString n
  | .str s => s
  | .arr items => "[" ++ pyStrList items ++ "]"
  | .obj fields => "\x7b" ++ pyStrFields fields ++ "\x7d"

/-- CPython `repr` of a container element: strings are quoted, other
values render as `str` does. -/
def pyReprItem : JValue → String
  | .null => "None"
  | .bool true => "True"
  | .bool false => "False"
  | .num n => toString n
  | .str s => pyReprStr s
  | .arr items => "[" ++ pyStrList items ++ "]"
  | .obj fields => "\x7b" ++ pyStrFields fields ++ "\x7d"

/-- Comma-joined `repr` of list items, as CPython renders list elements. -/
def pyStrList : List JValue → String
  | [] => ""
  | [v] => pyReprItem v
  | v :: rest => pyReprItem v ++ ", " ++ pyStrList rest

/-- Comma-joined `repr` of dict entries, as CPython renders dict entries. -/
def pyStrFields : List (String × JValue) → String
  | [] => ""
  | [(k, v)] => pyReprStr k ++ ": " ++ pyReprItem v
  | (k, v) :: rest => pyReprStr k ++ ": " ++ pyReprItem v ++ ", " ++ pyStrFields rest

end

mutual

/-- `json.dumps(v, ensure_ascii=False)` with the default separators
(`", "` and `": "`).  String-content escaping beyond the quote and
backslash is not modelled; no claim evaluates it. -/
def jsonDumps : JValue → String
  | .null => "null"
  | .bool true => "true"
  | .bool false => "false"
  | .num n => toString n
  | .str s => "\"" ++ jsonEscape s.data ++ "\""
  | .arr items => "[" ++ jsonDumpsList items ++ "]"
  | .obj fields => "\x7b" ++ jsonDumpsFields fields ++ "\x7d"

/-- Escapes the quote, backslash and the common control characters inside
a serialized JSON string. -/
def jsonEscape : List Char → String
  | [] => ""
  | c :: rest =>
    (if c = '"' then "\\\""
     else if c = '\\' then "\\\\"
     else if c = '\n' then "\\n"
     else if c = '\t' then "\\t"
     else if c = '\r' then "\\r"
     else String.mk [c]) ++ jsonEscape rest

/-- Comma-joined serialization of array items. -/
def jsonDumpsList : List JValue → String
  | [] => ""
  | [v] => jsonDumps v
  | v :: rest => jsonDumps v ++ ", " ++ jsonDumpsList rest

/-- Comma-joined serialization of object entries. -/
def jsonDumpsFields : List (String × JValue) → String
  | [] => ""
  | [(k, v)] => "\"" ++ jsonEscape k.data ++ "\": " ++ jsonDumps v
  | (k, v) :: rest => "\"" ++ jsonEscape k.data ++ "\": " ++ jsonDumps v ++ ", " ++ jsonDumpsFields rest

end

/-- Python `s in names` for a string `s` and a list of modelled values:
`==` holds exactly on a string entry with the same characters (Python
equality across distinct JSON-value types is `False`). -/
def pyStrMem (s : String) (names : List JValue) : Bool :=
  names.any (fun v => match v with | .str t => t = s | _ => false)

/-- The typed decision produced by `_validate_decision`: the source returns
`("final", {"final": text})` or `("tool", {"name": name, "args": args})`. -/
inductive Decision where
  | final (text : String)
  | tool (name : String) (args : Obj)

/-- The `ValueError`s raised by `_validate_decision`, plus the
`AttributeError` CPython raises when `.strip()` meets a non-string
truthy `type` value. -/
inductive ValidateError where
  | toolNotAllowed (name : String)
  | argsNotObject
  | badType
  | attributeError
deriving DecidableEq

/-- `agent.py:_validate_decision` — checks the extracted JSON object
against the decision protocol and the tool-name allow-list.

```python
def _validate_decision(obj, tool_names):
    t = (obj.get("type") or "").strip().lower()
    if t == "final":
        return ("final", {"final": str(obj.get("final") or "")})
    if t == "tool":
        name = str(obj.get("name") or "").strip()
        if tool_names and name not in tool_names:
            raise ValueError(f"tool not allowed: {name}")
        args = obj.get("args") or {}
        if not isinstance(args, dict):
            raise ValueError("args must be an object")
        return ("tool", {"name": name, "args": args})
    raise ValueError("type must be 'tool' or 'final'")
```

`tool_names` entries are the `"name"` values of the compacted catalog and
are kept as `JValue`s; Python's `name in tool_names` compares the string
`name` with each entry by `==`, which is string equality on string entries
and `False` on entries of any other type — `pyStrMem` below. -/
def _validate_decision (obj : Obj) (tool_names : List JValue) :
    Except ValidateError Decision :=
  match pyGetOr obj "type" (.str "") with
  | .str t0 =>
    let t := pyLower (pyStrip t0)
    if t = "final" then
      .ok (.final (pyStr (pyGetOr obj "final" (.str ""))))
    else if t = "tool" then
      let name := pyStrip (pyStr (pyGetOr obj "name" (.str "")))
      if !tool_names.isEmpty && !pyStrMem name tool_names then
        .error (.toolNotAllowed name)
      else
        match pyGetOr obj "args" (.obj []) with
        | .obj fields => .ok (.tool name fields)
        | _ => .error .argsNotObject
    else
      .error .badType
  | _ => .error .attributeError

/-- JSON whitespace, as accepted by `json.loads`. -/
def isJsonWs (c : Char) : Bool :=
  c = ' ' || c = '\t' || c = '\n' || c = '\r'

/-- Drops leading JSON whitespace. -/
def skipWs : List Char → List Char
  | [] => []
  | c :: rest => if isJsonWs c then skipWs rest else c :: rest

/-- Hex digit value, for `\uXXXX` escapes. -/
def hexVal (c : Char) : Option Nat :=
  if '0' ≤ c ∧ c ≤ '9' then some (c.toNat - '0'.toNat)
  else if 'a' ≤ c ∧ c ≤ 'f' then some (c.toNat - 'a'.toNat + 10)
  else if 'A' ≤ c ∧ c ≤ 'F' then some (c.toNat - 'A'.toNat + 10)
  else none

/-- Parses the body of a JSON string after the opening quote, handling the
standard escapes; returns the decoded content and the input after the
closing quote. -/
def parseStringBody : List Char → Except String (String × List Char)
  | [] => .error "unterminated string"
  | '"' :: rest => .ok ("", rest)
  | '\\' :: esc :: rest =>
    match esc with
    | '"' => (parseStringBody rest).map (fun (s, r) => (String.mk ('"' :: s.data), r))
    | '\\' => (parseStringBody rest).map (fun (s, r) => (String.mk ('\\' :: s.data), r))
    | '/' => (parseStringBody rest).map (fun (s, r) => (String.mk ('/' :: s.data), r))
    | 'n' => (parseStringBody rest).map (fun (s, r) => (String.mk ('\n' :: s.data), r))
    | 't' => (parseStringBody rest).map (fun (s, r) => (String.mk ('\t' :: s.data), r))
    | 'r' => (parseStringBody rest).map (fun (s, r) => (String.mk ('\r' :: s.data), r))
    | 'b' => (parseStringBody rest).map (fun (s, r) => (String.mk ('\x08' :: s.data), r))
    | 'f' => (parseStringBody rest).map (fun (s, r) => (String.mk ('\x0c' :: s.data), r))
    | 'u' =>
      match rest with
      | h1 :: h2 :: h3 :: h4 :: rest4 =>
        match hexVal h1, hexVal h2, hexVal h3, hexVal h4 with
        | some a, some b, some c, some d =>
          (parseStringBody rest4).map
            (fun (s, r) => (String.mk (Char.ofNat (((a * 16 + b) * 16 + c) * 16 + d) :: s.data), r))
        | _, _, _, _ => .error "invalid unicode escape"
      | _ => .error "invalid unicode escape"
    | _ => .error "invalid escape"
  | c :: rest => (parseStringBody rest).map (fun (s, r) => (String.mk (c :: s.data), r))

/-- Splits off leading decimal digits. -/
def takeDigits : List Char → List Char × List Char
  | [] => ([], [])
  | c :: rest =>
    if '0' ≤ c ∧ c ≤ '9' then
      let (ds, r) := takeDigits rest
      (c :: ds, r)
    else ([], c :: rest)

/-- Numeric value of a digit list. -/
def digitsToNat : List Char → Nat
  | [] => 0
  | ds => ds.foldl (fun acc c => acc * 10 + (c.toNat - '0'.toNat)) 0

/-- Inserts a key into an object the way CPython dicts absorb duplicate
JSON keys: a repeated key keeps its first position and takes the new
value.  Parser-built objects are therefore duplicate-free. -/
def insertKey (fields : Obj) (k : String) (v : JValue) : Obj :=
  if fields.any (fun p => p.1 = k) then
    fields.map (fun p => if p.1 = k then (k, v) else p)
  else fields ++ [(k, v)]

mutual

/-- Recursive-descent JSON value parser, the model of `json.loads`' grammar.
`fuel` only bounds recursion depth and member-chain length (both are below
the input length, so `json_loads` supplies enough for every input).
Fractional and exponent number forms are outside the model — no claim
involves a non-integer number. -/
def parseVal : Nat → List Char → Except String (JValue × List Char)
  | 0, _ => .error "fuel exhausted"
  | _ + 1, [] => .error "Expecting value"
  | fuel + 1, c :: rest =>
    if c = '\x7b' then
      match skipWs rest with
      | '\x7d' :: rest2 => .ok (.obj [], rest2)
      | rest2 => (parseMembers fuel [] rest2).map (fun (fields, r) => (.obj fields, r))
    else if c = '[' then
      match skipWs rest with
      | ']' :: rest2 => .ok (.arr [], rest2)
      | rest2 => (parseItems fuel [] rest2).map (fun (items, r) => (.arr items, r))
    else if c = '"' then
      (parseStringBody rest).map (fun (s, r) => (.str s, r))
    else if c = 't' then
      match rest with
      | 'r' :: 'u' :: 'e' :: rest2 => .ok (.bool true, rest2)
      | _ => .error "Expecting value"
    else if c = 'f' then
      match rest with
      | 'a' :: 'l' :: 's' :: 'e' :: rest2 => .ok (.bool false, rest2)
      | _ => .error "Expecting value"
    else if c = 'n' then
      match rest with
      | 'u' :: 'l' :: 'l' :: rest2 => .ok (.null, rest2)
      | _ => .error "Expecting value"
    else if c = '-' then
      match takeDigits rest with
      | ([], _) => .error "Expecting value"
      | (ds, r) => .ok (.num (-(digitsToNat ds : Int)), r)
    else if '0' ≤ c ∧ c ≤ '9' then
      match takeDigits (c :: rest) with
      | (ds, r) => .ok (.num (digitsToNat ds : Int), r)
    else
      .error "Expecting value"

/-- Parses `"key": value` members after `{`, comma-separated, up to `}`. -/
def parseMembers : Nat → Obj → List Char → Except String (Obj × List Char)
  | 0, _, _ => .error "fuel exhausted"
  | fuel + 1, acc, cs =>
    match cs with
    | '"' :: rest =>
      match parseStringBody rest with
      | .error e => .error e
      | .ok (k, rest2) =>
        match skipWs rest2 with
        | ':' :: rest3 =>
          match parseVal fuel (skipWs rest3) with
          | .error e => .error e
          | .ok (v, rest4) =>
            let acc2 := insertKey acc k v
            match skipWs rest4 with
            | ',' :: rest5 => parseMembers fuel acc2 (skipWs rest5)
            | '\x7d' :: rest5 => .ok (acc2, rest5)
            | _ => .error "Expecting delimiter"
        | _ => .error "Expecting colon"
    | _ => .error "Expecting property name"

/-- Parses array items after `[`, comma-separated, up to `]`. -/
def parseItems : Nat → List JValue → List Char → Except String (List JValue × List Char)
  | 0, _, _ => .error "fuel exhausted"
  | fuel + 1, acc, cs =>
    match parseVal fuel cs with
    | .error e => .error e
    | .ok (v, rest) =>
      match skipWs rest with
      | ',' :: rest2 => parseItems fuel (acc ++ [v]) (skipWs rest2)
      | ']' :: rest2 => .ok (acc ++ [v], rest2)
      | _ => .error "Expecting delimiter"

end

/-- `json.loads` on a whole document: one value, surrounding whitespace
allowed, trailing data rejected. -/
def json_loads (s : String) : Except String JValue :=
  match parseVal (2 * s.length + 8) (skipWs s.data) with
  | .error e => .error e
  | .ok (v, rest) => if (skipWs rest).isEmpty then .ok v else .error "Extra data"

/-- Suffix following the first triple-backtick fence marker, when any. -/
def findFence : List Char → Option (List Char)
  | '`' :: '`' :: '`' :: rest => some rest
  | _ :: rest => findFence rest
  | [] => none

/-- Drops an optional `json` language tag (case-insensitive, immediately
after the opening fence), as the `(?:json)?` of the source regex. -/
def dropJsonTag : List Char → List Char
  | j :: s :: o :: n :: rest =>
    if j.toLower = 'j' ∧ s.toLower = 's' ∧ o.toLower = 'o' ∧ n.toLower = 'n' then rest
    else j :: s :: o :: n :: rest
  | cs => cs

/-- Characters before the next triple-backtick fence marker, when any. -/
def takeToFence : List Char → Option (List Char)
  | '`' :: '`' :: '`' :: _ => some []
  | c :: rest => (takeToFence rest).map (fun l => c :: l)
  | [] => none

/-- The fenced-block step of `_extract_json_obj`: the regex
` ```(?:json)?\s*([\s\S]*?)\s*``` ` (IGNORECASE) applied by `re.search`,
with `m.group(1).strip()` on a match — i.e. the trimmed text between the
first fence and the next one, minus an optional `json` tag; the input is
returned unchanged when no fenced block exists. -/
def stripFence (s : String) : String :=
  match findFence s.data with
  | none => s
  | some afterOpen =>
    match takeToFence (dropJsonTag afterOpen) with
    | some inner => pyStrip (String.mk inner)
    | none => s

/-- Suffix of the input starting at its first open brace, when any. -/
def afterFirstOpenBrace : List Char → Option (List Char)
  | [] => none
  | c :: rest => if c = '\x7b' then some (c :: rest) else afterFirstOpenBrace rest

/-- Longest prefix ending at the last close brace, when any. -/
def upToLastCloseBrace (cs : List Char) : Option (List Char) :=
  let r := cs.reverse.dropWhile (fun c => c ≠ '\x7d')
  if r.isEmpty then none else some r.reverse

/-- The best-effort step of `_extract_json_obj`: `re.search(r"(\{[\s\S]*\})")`,
the greedy span from the first open brace to the last close brace after it;
the input is returned unchanged when no such span exists. -/
def braceSpan (s : String) : String :=
  match afterFirstOpenBrace s.data with
  | none => s
  | some [] => s
  | some (_ :: rest) =>
    match upToLastCloseBrace rest with
    | some body => String.mk ('\x7b' :: body)
    | none => s

/-- `agent.py:_extract_json_obj` — extracts a JSON object from raw model
output (fenced-block aware, with a brace-span fallback):

```python
def _extract_json_obj(text):
    if not text:
        raise ValueError("empty model output")
    text = text.strip()
    m = re.search(r"```(?:json)?\s*([\s\S]*?)\s*```", text, flags=re.IGNORECASE)
    if m:
        text = m.group(1).strip()
    if not text.startswith("{"):
        m2 = re.search(r"(\{[\s\S]*\})", text)
        if m2:
            text = m2.group(1)
    obj = json.loads(text)
    if not isinstance(obj, dict):
        raise ValueError("model output is not a JSON object")
    return obj
``` -/
def _extract_json_obj (text : String) : Except String Obj :=
  if text = "" then .error "empty model output"
  else
    let t1 := pyStrip text
    let t2 := stripFence t1
    let t3 := if startsWithBrace t2 then t2 else braceSpan t2
    match json_loads t3 with
    | .error e => .error e
    | .ok (.obj fields) => .ok fields
    | .ok _ => .error "model output is not a JSON object"

/-- Content coercion of `_extract_text`: a dict content becomes its first
truthy `text`/`content` field, else its `json.dumps`; a `None` (or missing)
content becomes the empty string; anything else is kept and rendered by the
f-string. -/
def messageContentText (m : Obj) : String :=
  let content0 := (objGet m "content").getD .null
  let content1 :=
    match content0 with
    | .obj d =>
      let t := (objGet d "text").getD .null
      if t.truthy then t
      else
        let c := (objGet d "content").getD .null
        if c.truthy then c else .str (jsonDumps (.obj d))
    | v => v
  match content1 with
  | .null => ""
  | v => pyStr v

/-- One `"<role>: <content>"` line per message, as `_extract_text` builds
them; `(m.get("role") or "user").strip()` raises `AttributeError` when the
stored role is truthy and not a string. -/
def extractParts : List Obj → Except String (List String)
  | [] => .ok []
  | m :: rest =>
    match pyGetOr m "role" (.str "user") with
    | .str r =>
      (extractParts rest).map (fun ps => (pyStrip r ++ ": " ++ messageContentText m) :: ps)
    | _ => .error "AttributeError: object has no attribute strip"

/-- `agent.py:_extract_text` — flattens the conversation to one text block:

```python
def _extract_text(messages):
    parts = []
    for m in messages or []:
        role = (m.get("role") or "user").strip()
        content = m.get("content")
        if isinstance(content, dict):
            content = content.get("text") or content.get("content") or json.dumps(content, ensure_ascii=False)
        if content is None:
            content = ""
        parts.append(f"{role}: {content}")
    return "\n".join(parts).strip()
``` -/
def _extract_text (messages : List Obj) : Except String String :=
  (extractParts messages).map (fun parts => pyStrip (String.intercalate "\n" parts))

/-- `agent.py:_compact_tools` — normalizes raw tool records to
`{name, description}` pairs, skipping unnamed entries and appending up to
30 schema-property keys to the description:

```python
def _compact_tools(raw_tools):
    cleaned = []
    for t in raw_tools or []:
        name = t.get("name") or ""
        if not name:
            continue
        desc = t.get("description") or ""
        schema = t.get("inputSchema") or {}
        schema_props = schema.get("properties") if isinstance(schema, dict) else None
        if isinstance(schema_props, dict) and schema_props:
            keys = ", ".join(list(schema_props.keys())[:30])
            desc = f"{desc} (args: {keys})"
        cleaned.append({"name": name, "description": desc})
    return cleaned
``` -/
def _compact_tools : List Obj → List Obj
  | [] => []
  | t :: rest =>
    let name := pyGetOr t "name" (.str "")
    if !name.truthy then _compact_tools rest
    else
      let desc := pyGetOr t "description" (.str "")
      let schema := pyGetOr t "inputSchema" (.obj [])
      let schema_props : Option JValue :=
        match schema with
        | .obj fields => objGet fields "properties"
        | _ => none
      let desc2 :=
        match schema_props with
        | some (.obj props) =>
          if !props.isEmpty then
            .str (pyStr desc ++ " (args: " ++
              String.intercalate ", " ((props.map Prod.fst).take 30) ++ ")")
          else desc
        | _ => desc
      [("name", name), ("description", desc2)] :: _compact_tools rest

/-- The LangGraph state dict of the run, with the keys the nodes use.
`decision`, `last_tool` and `last_result` are absent (`None`) until first
written; the run starts from `{"scratchpad": "", "steps": 0}`. -/
structure AgentState where
  scratchpad : String
  steps : Nat
  decision : Option Decision
  last_tool : Option String
  last_result : Option JValue

/-- The initial state `{"scratchpad": "", "steps": 0}` of `run_agent`. -/
def initState : AgentState := ⟨"", 0, none, none, none⟩

/-- The fixed diagnostic `plan_node` stores when parsing fails on an empty
model text. -/
def formatErrorMessage : String := "抱歉，AI返回格式异常。"

/-- The decision `plan_node` derives from the model text: the
`_extract_json_obj` / `_validate_decision` pipeline, with any exception
from either mapped to `none` (the node catches both identically in one
`except` branch). -/
def decisionOfText (text : String) (tool_names : List JValue) : Option Decision :=
  match _extract_json_obj text with
  | .error _ => none
  | .ok obj =>
    match _validate_decision obj tool_names with
    | .error _ => none
    | .ok d => some d

/-- `agent.py:plan_node` — asks the model (here: the next scripted response,
`.error e` standing for a raised exception with message `e`), parses the
reply and stores the decision; on a model-call failure it stores a
diagnostic final, and on a parse failure it stores the raw model text as a
final (or a fixed diagnostic when the text is empty):

```python
async def plan_node(state):
    scratch = state.get("scratchpad") or ""
    prompt = _build_decision_prompt(question, tools, scratch)
    try:
        resp = await llm.ainvoke([HumanMessage(content=prompt)])
        text = (getattr(resp, "content", None) or "").strip()
    except Exception as e:
        state["decision"] = {"kind": "final", "final": f"抱歉，AI调用失败: {e}。请检查主服务端是否正常运行。"}
        return state
    try:
        obj = _extract_json_obj(text)
        kind, payload = _validate_decision(obj, tool_names)
        state["decision"] = {"kind": kind, **payload}
    except Exception as e:
        state["decision"] = {"kind": "final", "final": text if text else "抱歉，AI返回格式异常。"}
    return state
```

The prompt built from `(question, tools, scratch)` only feeds the model
call and touches no state, so it does not appear here. -/
def plan_node (tool_names : List JValue) (resp : Except String String) (s : AgentState) :
    AgentState :=
  match resp with
  | .error e =>
    { s with decision := some (.final ("抱歉，AI调用失败: " ++ e ++ "。请检查主服务端是否正常运行。")) }
  | .ok content =>
    let text := pyStrip content
    match decisionOfText text tool_names with
    | some d => { s with decision := some d }
    | none =>
      { s with decision := some (.final (if text ≠ "" then text else formatErrorMessage)) }

/-- `agent.py:act_node` — on a tool decision, invokes the tool collaborator
(here: the scripted result, `.error e` standing for a raised exception,
which propagates — the source has no handler around the call) and appends
the CALL/OBS pair to the scratchpad:

```python
async def act_node(state):
    decision = state.get("decision") or {}
    if decision.get("kind") != "tool":
        return state
    name = decision.get("name")
    args = decision.get("args") or {}
    result = await deps.call_mcp_tool(name, args)
    obs = json.dumps(result, ensure_ascii=False)
    scratch = state.get("scratchpad") or ""
    scratch += f"\nCALL {name} args={json.dumps(args, ensure_ascii=False)}\nOBS {obs}\n"
    state["scratchpad"] = scratch
    state["last_tool"] = name
    state["last_result"] = result
    return state
``` -/
def act_node (tool_result : Except String JValue) (s : AgentState) :
    Except String AgentState :=
  match s.decision with
  | some (.tool name args) =>
    match tool_result with
    | .error e => .error e
    | .ok result =>
      let obs := jsonDumps result
      .ok { s with
        scratchpad := s.scratchpad ++ "\nCALL " ++ name ++ " args=" ++
          jsonDumps (.obj args) ++ "\nOBS " ++ obs ++ "\n",
        last_tool := some name,
        last_result := some result }
  | _ => .ok s

/-- `agent.py:route` — the conditional edge evaluated after each `plan`:

```python
def route(state):
    decision = state.get("decision") or {}
    if decision.get("kind") == "final":
        return "final"
    steps = int(state.get("steps") or 0)
    if steps >= deps.max_steps:
        return "final"
    return "act"
``` -/
def route (max_steps : Nat) (s : AgentState) : String :=
  match s.decision with
  | some (.final _) => "final"
  | _ => if s.steps ≥ max_steps then "final" else "act"

/-- `agent.py:bump_steps` — `state["steps"] = int(state.get("steps") or 0) + 1`. -/
def bump_steps (s : AgentState) : AgentState :=
  { s with steps := s.steps + 1 }

/-- A recorded `invoke_tool` invocation: the arguments `act_node` passed and
the scripted outcome (`.error` = the collaborator raised). -/
structure ToolCall where
  name : String
  args : Obj
  result : Except String JValue

/-- Outcome of driving the compiled graph: the final state (or the
exception that escaped a node, as `ainvoke` re-raises it), the number of
model calls made and the tool invocations in order. -/
structure LoopResult where
  outcome : Except String AgentState
  modelCalls : Nat
  toolCalls : List ToolCall

/-- The compiled LangGraph of `run_agent`, driven over the scripts of model
responses and tool results:

```python
graph.set_entry_point("plan")
graph.add_conditional_edges("plan", route, {"act": "act", "final": END})
graph.add_edge("act", "bump")
graph.add_edge("bump", "plan")
```

Each iteration runs `plan` on the next scripted model response (an
exhausted script is the model raising), stops at `END` when `route` says
`"final"`, and otherwise runs `act` (consuming a scripted tool result
exactly when the decision is a tool call) and `bump` before looping.  A
node exception aborts the graph with that error. -/
def agent_loop (tool_names : List JValue) (max_steps : Nat) :
    List (Except String String) → List (Except String JValue) → AgentState → LoopResult
  | [], _, s =>
    let s1 := plan_node tool_names (.error "no scripted model response") s
    ⟨.ok s1, 1, []⟩
  | m :: ms, ts, s =>
    let s1 := plan_node tool_names m s
    if route max_steps s1 = "final" then ⟨.ok s1, 1, []⟩
    else
      match s1.decision with
      | some (.tool name args) =>
        let tr := ts.headD (.error "no scripted tool result")
        match act_node tr s1 with
        | .error e => ⟨.error e, 1, [⟨name, args, tr⟩]⟩
        | .ok s2 =>
          let r := agent_loop tool_names max_steps ms ts.tail (bump_steps s2)
          ⟨r.outcome, r.modelCalls + 1, ⟨name, args, tr⟩ :: r.toolCalls⟩
      | _ =>
        let r := agent_loop tool_names max_steps ms ts (bump_steps s1)
        ⟨r.outcome, r.modelCalls + 1, r.toolCalls⟩

/-- The fixed fallback `run_agent` returns when the loop ends without a
final decision. -/
def stepLimitMessage : String :=
  "已达到最大步骤限制，无法继续自动调用工具。请缩小问题或减少工具调用需求。"

/-- The tail of `run_agent` (its lines after `app.ainvoke`): a graph
exception becomes the `Agent执行失败` diagnostic; a final decision yields
`str(decision.get("final") or "")` — equal to the stored text, since a
falsy stored text is the empty string itself; anything else yields the
fixed step-limit fallback.  The `if not final_state` guard is vacuous (the
state dict always carries `scratchpad` and `steps`, hence is truthy) and
has no counterpart here. -/
def finalAnswer (outcome : Except String AgentState) : String :=
  match outcome with
  | .error e => "抱歉，Agent执行失败: " ++ e
  | .ok fs =>
    match fs.decision with
    | some (.final t) => t
    | _ => stepLimitMessage

/-- The `AgentDeps` fields that the core's control flow reads.  The source
bundle also carries `main_server_url`, `provider_or_model`, `temperature`,
`max_tokens`, `verbose` and `timeout`, which only parametrize the LLM
client and logging and never branch the orchestration, plus the two
collaborators modelled as scripts.  `max_steps` is a Python int; a
non-positive value behaves exactly like `0` in `route`, so `Nat` loses no
behaviour. -/
structure AgentDeps where
  max_steps : Nat
  use_tools : Bool

/-- Parameter names of `AgentDeps.__init__` in `agent.py`, in order. -/
def agentDepsInitParams : List String :=
  ["main_server_url", "provider_or_model", "temperature", "max_tokens",
   "max_steps", "verbose", "use_tools", "get_mcp_tools", "call_mcp_tool", "timeout"]

/-- Keyword arguments `langchain_service.py:chat_handler` passes when it
constructs `AgentDeps` (lines 139–151), in order. -/
def chatHandlerAgentDepsKwargs : List String :=
  ["main_server_url", "provider_or_model", "temperature", "max_tokens",
   "max_steps", "verbose", "use_tools", "get_mcp_tools", "call_mcp_tool",
   "timeout", "max_tools"]

/-- What a `run_agent` call did: the returned answer, how many times each
collaborator was invoked, the tool invocations in order, and the loop
outcome (`none` when the empty-question early return skipped the loop). -/
structure RunReport where
  answer : String
  fetchCalls : Nat
  modelCalls : Nat
  toolCalls : List ToolCall
  loopOutcome : Option (Except String AgentState)

/-- `agent.py:run_agent` — the public run operation, over the scripted
collaborators: `fetch` is what `await deps.get_mcp_tools()` does (`.error`
= it raised), `ms` scripts the model responses and `ts` the tool results.
A raised `AttributeError` from `_extract_text` escapes `run_agent` (the
source has no handler around it); every other modelled failure is
contained.

```python
async def run_agent(messages, deps):
    question = _extract_text(messages)
    if not question:
        return ""
    tools = []
    if deps.use_tools:
        try:
            tools = _compact_tools(await deps.get_mcp_tools())
        except Exception as e:
            tools = []
    tool_names = [t["name"] for t in tools]
    llm = ChatOpenAI(...)          # configuration only; no state effect
    ... node definitions, graph wiring ...
    init = {"scratchpad": "", "steps": 0}
    try:
        final_state = await app.ainvoke(init)
    except Exception as e:
        return f"抱歉，Agent执行失败: {str(e)}"
    decision = final_state.get("decision") or {}
    if decision.get("kind") == "final":
        return str(decision.get("final") or "")
    return "已达到最大步骤限制，无法继续自动调用工具。请缩小问题或减少工具调用需求。"
``` -/
def run_agent (messages : List Obj) (deps : AgentDeps)
    (fetch : Except String (List Obj))
    (ms : List (Except String String)) (ts : List (Except String JValue)) :
    Except String RunReport :=
  match _extract_text messages with
  | .error e => .error e
  | .ok question =>
    if question = "" then .ok ⟨"", 0, 0, [], none⟩
    else
      let fetchCalls := if deps.use_tools then 1 else 0
      let tools : List Obj :=
        if deps.use_tools then
          match fetch with
          | .ok raw => _compact_tools raw
          | .error _ => []
        else []
      let tool_names := tools.map (fun t => (objGet t "name").getD .null)
      let r := agent_loop tool_names deps.max_steps ms ts initState
      .ok ⟨finalAnswer r.outcome, fetchCalls, r.modelCalls, r.toolCalls, some r.outcome⟩

/-- The `CALL .. / OBS ..` pair `act_node` appends for one executed tool
invocation (the `OBS` payload of an invocation whose collaborator raised
never reaches a scratchpad: the node dies before appending). -/
def callObsLine (c : ToolCall) : String :=
  "\nCALL " ++ c.name ++ " args=" ++ jsonDumps (.obj c.args) ++ "\nOBS " ++
    (match c.result with | .ok v => jsonDumps v | .error _ => "") ++ "\n"

/-- Concatenated CALL/OBS pairs of a list of invocations, in order. -/
def traceOf (calls : List ToolCall) : String :=
  calls.foldr (fun c acc => callObsLine c ++ acc) ""

/-- The state `act_node` leaves after a successful invocation of tool `n`
with arguments `a` and observation `v`: the CALL/OBS pair is appended and
`last_tool`/`last_result` are updated; `steps` and `decision` are
untouched. -/
def actSucc (s : AgentState) (n : String) (a : Obj) (v : JValue) : AgentState :=
  { s with
    scratchpad := s.scratchpad ++ callObsLine ⟨n, a, .ok v⟩,
    last_tool := some n, last_result := some v }

/-! Concrete inputs used by the counterexamples and witnesses. -/

/-- A one-message conversation, `[{"role": "user", "content": "2+2?"}]`. -/
def demoMsgs : List Obj := [[("role", .str "user"), ("content", .str "2+2?")]]

/-- Model output proposing a tool absent from every catalog below:
`{"type":"tool","name":"unknown.x","args":{}}`. -/
def unknownToolText : String :=
  "\x7b\"type\":\"tool\",\"name\":\"unknown.x\",\"args\":\x7b\x7d\x7d"

/-- Model output proposing the catalogued tool:
`{"type":"tool","name":"calc.add","args":{"a":2,"b":2}}`. -/
def calcToolText : String :=
  "\x7b\"type\":\"tool\",\"name\":\"calc.add\",\"args\":\x7b\"a\":2,\"b\":2\x7d\x7d"

/-- Model output `{"type":"final","final":"X"}`. -/
def finalXText : String := "\x7b\"type\":\"final\",\"final\":\"X\"\x7d"

/-- Model output `{"type":"final","final":0}` — a present but falsy
`final` field. -/
def finalZeroText : String := "\x7b\"type\":\"final\",\"final\":0\x7d"

/-- Model output that is plain prose without any JSON. -/
def proseText : String := "I think the answer is four."

/-- A raw one-tool catalog, `[{"name": "calc.add"}]`. -/
def calcCatalog : List Obj := [[("name", .str "calc.add")]]

/-- A successful tool observation, `{"success": true, "data": 4}`. -/
def toolOkResult : JValue := .obj [("success", .bool true), ("data", .num 4)]

/-- A raw catalog of 41 named tools, one more than the documented
max-tools-surfaced default of 40. -/
def manyTools : List Obj :=
  (List.range 41).map (fun i => [("name", JValue.str ("t" ++ toString i))])

/-- A state holding a pending tool decision, as left by a plan phase. -/
def demoToolState : AgentState :=
  ⟨"", 0, some (.tool "calc.add" [("a", .num 2), ("b", .num 2)]), none, none⟩

/-- The state `act_node` produces from `demoToolState` on a successful
`toolOkResult` observation. -/
def actedState : AgentState :=
  match act_node (.ok toolOkResult) demoToolState with
  | .ok s => s
  | .error _ => demoToolState

/-- The scenario-B loop: one successful `calc.add` invocation, then a
final `"X"`. -/
def scenarioBLoop : LoopResult :=
  agent_loop [.str "calc.add"] 6 [.ok calcToolText, .ok finalXText] [.ok toolOkResult] initState

/-- The state the scenario-B loop completes in. -/
def scenarioBFinal : AgentState :=
  match scenarioBLoop.outcome with
  | .ok s => s
  | .error _ => initState

/-! ## Helper lemmas about the nodes and the routing -/

theorem extract_json_obj_empty : _extract_json_obj "" = .error "empty model output" := rfl

theorem plan_node_err (tn : List JValue) (e : String) (s : AgentState) :
    plan_node tn (.error e) s =
      { s with decision := some (.final ("抱歉，AI调用失败: " ++ e ++ "。请检查主服务端是否正常运行。")) } := rfl

theorem plan_node_parsed (tn : List JValue) (content : String) (s : AgentState) (d : Decision)
    (h : decisionOfText (pyStrip content) tn = some d) :
    plan_node tn (.ok content) s = { s with decision := some d } := by
  simp [plan_node, h]

theorem plan_node_unparsed (tn : List JValue) (content : String) (s : AgentState)
    (h : decisionOfText (pyStrip content) tn = none) :
    plan_node tn (.ok content) s =
      { s with decision := some (.final (if pyStrip content ≠ "" then pyStrip content else formatErrorMessage)) } := by
  simp [plan_node, h]

theorem plan_node_frame (tn : List JValue) (m : Except String String) (s : AgentState) :
    (plan_node tn m s).scratchpad = s.scratchpad ∧ (plan_node tn m s).steps = s.steps ∧
    (plan_node tn m s).last_tool = s.last_tool ∧
    (plan_node tn m s).last_result = s.last_result := by
  cases m with
  | error e => rw [plan_node_err]; exact ⟨rfl, rfl, rfl, rfl⟩
  | ok content =>
    cases h : decisionOfText (pyStrip content) tn with
    | none => rw [plan_node_unparsed tn content s h]; exact ⟨rfl, rfl, rfl, rfl⟩
    | some d => rw [plan_node_parsed tn content s d h]; exact ⟨rfl, rfl, rfl, rfl⟩

theorem act_node_tool_raise (n : String) (a : Obj) (e : String) (s : AgentState)
    (h : s.decision = some (.tool n a)) :
    act_node (.error e) s = .error e := by
  unfold act_node; rw [h]

theorem act_node_tool_ok (n : String) (a : Obj) (v : JValue) (s : AgentState)
    (h : s.decision = some (.tool n a)) :
    act_node (.ok v) s = .ok (actSucc s n a v) := by
  unfold act_node actSucc callObsLine; rw [h]; simp [String.append_assoc]

theorem act_node_tool_ok_inv (n : String) (a : Obj) (tr : Except String JValue)
    (s s2 : AgentState) (h : s.decision = some (.tool n a)) (h2 : act_node tr s = .ok s2) :
    ∃ v, tr = .ok v ∧ s2 = actSucc s n a v := by
  cases tr with
  | error e => rw [act_node_tool_raise n a e s h] at h2; exact absurd h2 (by simp)
  | ok v =>
    rw [act_node_tool_ok n a v s h] at h2
    exact ⟨v, rfl, by injection h2 with h3; exact h3.symm⟩

theorem route_of_final (mx : Nat) (t : String) (s : AgentState)
    (h : s.decision = some (.final t)) : route mx s = "final" := by
  unfold route; rw [h]

theorem route_of_limit (mx : Nat) (s : AgentState) (h : mx ≤ s.steps) :
    route mx s = "final" := by
  unfold route
  cases hd : s.decision with
  | none => simp [h]
  | some d => cases d <;> simp [h]

theorem route_of_tool (mx : Nat) (n : String) (a : Obj) (s : AgentState)
    (h : s.decision = some (.tool n a)) (h2 : s.steps < mx) : route mx s = "act" := by
  unfold route; rw [h]; simp [Nat.not_le.mpr h2]

theorem route_lt_of_ne_final (mx : Nat) (s : AgentState) (h : route mx s ≠ "final") :
    s.steps < mx := by
  by_contra hge
  exact h (route_of_limit mx s (by omega))

theorem agent_loop_final_step (tn : List JValue) (mx : Nat) (m : Except String String)
    (ms : List (Except String String)) (ts : List (Except String JValue)) (s : AgentState)
    (h : route mx (plan_node tn m s) = "final") :
    agent_loop tn mx (m :: ms) ts s = ⟨.ok (plan_node tn m s), 1, []⟩ := by
  simp [agent_loop, h]

theorem validate_final_eq (obj : Obj) (tns : List JValue) (ty : String)
    (hty : pyGetOr obj "type" (.str "") = .str ty) (hfin : pyLower (pyStrip ty) = "final") :
    _validate_decision obj tns = .ok (.final (pyStr (pyGetOr obj "final" (.str "")))) := by
  unfold _validate_decision; rw [hty]; simp [hfin]

theorem validate_tool_not_allowed (obj : Obj) (tns : List JValue) (ty : String)
    (hty : pyGetOr obj "type" (.str "") = .str ty) (htool : pyLower (pyStrip ty) = "tool")
    (hne : tns ≠ [])
    (hmem : pyStrMem (pyStrip (pyStr (pyGetOr obj "name" (.str "")))) tns = false) :
    _validate_decision obj tns =
      .error (.toolNotAllowed (pyStrip (pyStr (pyGetOr obj "name" (.str ""))))) := by
  unfold _validate_decision
  rw [hty]
  have hempty : tns.isEmpty = false := by cases tns with
    | nil => exact absurd rfl hne
    | cons a l => rfl
  simp [htool, hempty, hmem]

theorem agent_loop_act_raise (tn : List JValue) (mx : Nat) (m : Except String String)
    (ms : List (Except String String)) (ts : List (Except String JValue)) (s : AgentState)
    (n : String) (a : Obj) (e : String)
    (hne : route mx (plan_node tn m s) ≠ "final")
    (hdec : (plan_node tn m s).decision = some (.tool n a))
    (htr : ts.headD (.error "no scripted tool result") = .error e) :
    agent_loop tn mx (m :: ms) ts s = ⟨.error e, 1, [⟨n, a, .error e⟩]⟩ := by
  have htr2 : ts.head?.getD (Except.error "no scripted tool result") = .error e := by
    rw [← List.headD_eq_head?]; exact htr
  simp [agent_loop, hne, hdec, htr2, act_node_tool_raise n a e (plan_node tn m s) hdec]

theorem agent_loop_act_ok (tn : List JValue) (mx : Nat) (m : Except String String)
    (ms : List (Except String String)) (ts : List (Except String JValue)) (s : AgentState)
    (n : String) (a : Obj) (v : JValue)
    (hne : route mx (plan_node tn m s) ≠ "final")
    (hdec : (plan_node tn m s).decision = some (.tool n a))
    (htr : ts.headD (.error "no scripted tool result") = .ok v) :
    agent_loop tn mx (m :: ms) ts s =
      ⟨(agent_loop tn mx ms ts.tail (bump_steps (actSucc (plan_node tn m s) n a v))).outcome,
       (agent_loop tn mx ms ts.tail (bump_steps (actSucc (plan_node tn m s) n a v))).modelCalls + 1,
       ⟨n, a, .ok v⟩ ::
         (agent_loop tn mx ms ts.tail (bump_steps (actSucc (plan_node tn m s) n a v))).toolCalls⟩ := by
  have htr2 : ts.head?.getD (Except.error "no scripted tool result") = .ok v := by
    rw [← List.headD_eq_head?]; exact htr
  simp [agent_loop, hne, hdec, htr2, act_node_tool_ok n a v (plan_node tn m s) hdec]

theorem agent_loop_none_step (tn : List JValue) (mx : Nat) (m : Except String String)
    (ms : List (Except String String)) (ts : List (Except String JValue)) (s : AgentState)
    (hne : route mx (plan_node tn m s) ≠ "final")
    (hdec : (plan_node tn m s).decision = none) :
    agent_loop tn mx (m :: ms) ts s =
      ⟨(agent_loop tn mx ms ts (bump_steps (plan_node tn m s))).outcome,
       (agent_loop tn mx ms ts (bump_steps (plan_node tn m s))).modelCalls + 1,
       (agent_loop tn mx ms ts (bump_steps (plan_node tn m s))).toolCalls⟩ := by
  simp [agent_loop, hne, hdec]

/-! ## Claim C1 -/

/-- C1 counterexample: against the empty catalog (tool use disabled), the
model decision `{"type":"tool","name":"unknown.x","args":{}}` passes
validation (the allow-list check is skipped when `tool_names` is empty)
and `invoke_tool` IS invoked once for it — the claim says a diagnostic
forced-final is returned and `invoke_tool` is never invoked. -/
theorem C1_counterexample :
    (run_agent demoMsgs ⟨6, false⟩ (.ok []) [.ok unknownToolText]
        [.ok (.obj [("success", .bool false)])]).map
      (fun r => r.toolCalls.map (fun c => (c.name, c.args))) =
    .ok [("unknown.x", [])] := by rfl

/-- C1 amended: only when the catalog name set is NON-empty does a decision
naming an absent tool yield a forced final without any `invoke_tool` call —
the loop ends after that plan, with the forced final carrying the raw model
text (the parse failure is recoverable, not a crash). -/
theorem C1_theorem (tn : List JValue) (mx : Nat) (raw : String) (obj : Obj) (ty : String)
    (ms : List (Except String String)) (ts : List (Except String JValue)) (s : AgentState)
    (hobj : _extract_json_obj (pyStrip raw) = .ok obj)
    (hty : pyGetOr obj "type" (.str "") = .str ty) (htool : pyLower (pyStrip ty) = "tool")
    (hne : tn ≠ [])
    (hmem : pyStrMem (pyStrip (pyStr (pyGetOr obj "name" (.str "")))) tn = false) :
    agent_loop tn mx ((.ok raw) :: ms) ts s =
      ⟨.ok { s with decision := some (.final (pyStrip raw)) }, 1, []⟩ := by
  have htrim : pyStrip raw ≠ "" := by
    intro h0
    rw [h0, extract_json_obj_empty] at hobj
    exact absurd hobj (by simp)
  have hval := validate_tool_not_allowed obj tn ty hty htool hne hmem
  have hnone : decisionOfText (pyStrip raw) tn = none := by
    simp [decisionOfText, hobj, hval]
  have hplan := plan_node_unparsed tn raw s hnone
  rw [if_pos htrim] at hplan
  rw [agent_loop_final_step tn mx (.ok raw) ms ts s
    (route_of_final mx (pyStrip raw) (plan_node tn (.ok raw) s) (by rw [hplan]))]
  rw [hplan]

/-- C1 witness: the same unknown-tool decision against the one-tool catalog
`[calc.add]` ends the run at that plan with a forced final and no tool
call. -/
theorem C1_witness :
    agent_loop [.str "calc.add"] 6 [.ok unknownToolText] [] initState =
      ⟨.ok { initState with decision := some (.final (pyStrip unknownToolText)) }, 1, []⟩ :=
  C1_theorem [.str "calc.add"] 6 unknownToolText
    [("type", .str "tool"), ("name", .str "unknown.x"), ("args", .obj [])] "tool"
    [] [] initState rfl rfl rfl (by simp) rfl

/-! ## Claim C6 -/

/-- C6 counterexample: an explicitly present `args` that is an empty
sequence (`[]`, falsy) is NOT rejected — `obj.get("args") or {}` replaces
every falsy `args` with the empty object, so validation succeeds where the
claim requires an `ArgsNotObject` failure. -/
theorem C6_counterexample :
    _validate_decision
        [("type", .str "tool"), ("name", .str "calc.add"), ("args", .arr [])]
        [.str "calc.add"] =
      .ok (.tool "calc.add" []) := by rfl

/-- C6 amended: an absent `args` — and equally any present but FALSY
`args` (null, false, 0, empty string, empty sequence) — is treated as the
empty object, while a truthy non-object `args` is rejected with the
args-must-be-object error. -/
theorem validate_tool_eq (obj : Obj) (tns : List JValue) (ty : String)
    (hty : pyGetOr obj "type" (.str "") = .str ty) (htool : pyLower (pyStrip ty) = "tool")
    (hcheck : (!tns.isEmpty && !pyStrMem (pyStrip (pyStr (pyGetOr obj "name" (.str "")))) tns) = false) :
    _validate_decision obj tns =
      (match pyGetOr obj "args" (.obj []) with
       | .obj fields => .ok (.tool (pyStrip (pyStr (pyGetOr obj "name" (.str "")))) fields)
       | _ => .error .argsNotObject) := by
  unfold _validate_decision
  rw [hty]
  simp [htool, hcheck]

theorem C6_theorem (n : String) (v : JValue) (tns : List JValue)
    (hname : tns = [] ∨ pyStrMem (pyStrip n) tns = true) :
    _validate_decision [("type", .str "tool"), ("name", .str n)] tns =
      .ok (.tool (pyStrip n) []) ∧
    (v.truthy = false →
      _validate_decision [("type", .str "tool"), ("name", .str n), ("args", v)] tns =
        .ok (.tool (pyStrip n) [])) ∧
    (v.truthy = true → (∀ fields, v ≠ .obj fields) →
      _validate_decision [("type", .str "tool"), ("name", .str n), ("args", v)] tns =
        .error .argsNotObject) := by
  have hnm1 : pyStrip (pyStr (pyGetOr [("type", JValue.str "tool"), ("name", JValue.str n)] "name" (.str ""))) = pyStrip n := by
    by_cases hn : n = "" <;> simp [pyGetOr, objGet, JValue.truthy, pyStr, hn]
  have hnm2 : pyStrip (pyStr (pyGetOr [("type", JValue.str "tool"), ("name", JValue.str n), ("args", v)] "name" (.str ""))) = pyStrip n := by
    by_cases hn : n = "" <;> simp [pyGetOr, objGet, JValue.truthy, pyStr, hn]
  have hcheck : (!tns.isEmpty && !pyStrMem (pyStrip n) tns) = false := by
    rcases hname with h | h
    · subst h; rfl
    · rw [h]; simp
  have hargs2 : pyGetOr [("type", JValue.str "tool"), ("name", JValue.str n), ("args", v)] "args" (.obj []) =
      (if v.truthy then v else .obj []) := rfl
  refine ⟨?_, ?_, ?_⟩
  · rw [validate_tool_eq [("type", .str "tool"), ("name", .str n)] tns "tool"
      rfl rfl (by rw [hnm1]; exact hcheck)]
    rw [hnm1]
    rfl
  · intro hv
    rw [validate_tool_eq [("type", .str "tool"), ("name", .str n), ("args", v)] tns "tool"
      rfl rfl (by rw [hnm2]; exact hcheck)]
    rw [hnm2, hargs2, hv]
    rfl
  · intro hv hvobj
    rw [validate_tool_eq [("type", .str "tool"), ("name", .str n), ("args", v)] tns "tool"
      rfl rfl (by rw [hnm2]; exact hcheck)]
    rw [hargs2, hv]
    cases v with
    | obj fields => exact absurd rfl (hvobj fields)
    | null => rfl
    | bool b => rfl
    | num m => rfl
    | str t => rfl
    | arr items => rfl

/-! ## Claim C2 -/

/-- C2: from any state, the loop makes at most `max_steps - steps` tool
invocations (so a run, starting at `steps = 0` with an empty scratchpad,
makes at most `max_steps` `invoke_tool` calls), and whenever the loop
completes, the final scratchpad is the starting scratchpad followed by
exactly one CALL/OBS pair per invocation, in invocation order — in
particular every intermediate scratchpad value is a prefix of every later
one. -/
theorem C2_theorem (tn : List JValue) (mx : Nat) :
    ∀ (ms : List (Except String String)) (ts : List (Except String JValue)) (s : AgentState),
      (s.steps + (agent_loop tn mx ms ts s).toolCalls.length ≤ mx ∨
        (agent_loop tn mx ms ts s).toolCalls = []) ∧
      (∀ fs, (agent_loop tn mx ms ts s).outcome = .ok fs →
        fs.scratchpad = s.scratchpad ++ traceOf (agent_loop tn mx ms ts s).toolCalls) := by
  intro ms
  induction ms with
  | nil =>
    intro ts s
    refine ⟨Or.inr rfl, ?_⟩
    intro fs hfs
    have heq : agent_loop tn mx [] ts s =
        ⟨.ok (plan_node tn (.error "no scripted model response") s), 1, []⟩ := rfl
    rw [heq] at hfs ⊢
    simp only [Except.ok.injEq] at hfs
    rw [← hfs, (plan_node_frame tn (.error "no scripted model response") s).1]
    show s.scratchpad = s.scratchpad ++ ""
    rw [String.append_empty]
  | cons m ms ih =>
    intro ts s
    by_cases hroute : route mx (plan_node tn m s) = "final"
    · rw [agent_loop_final_step tn mx m ms ts s hroute]
      refine ⟨Or.inr rfl, ?_⟩
      intro fs hfs
      simp only [Except.ok.injEq] at hfs
      rw [← hfs, (plan_node_frame tn m s).1]
      show s.scratchpad = s.scratchpad ++ ""
      rw [String.append_empty]
    · have hlt : s.steps < mx := by
        have := route_lt_of_ne_final mx (plan_node tn m s) hroute
        rw [(plan_node_frame tn m s).2.1] at this
        exact this
      cases hdec : (plan_node tn m s).decision with
      | none =>
        rw [agent_loop_none_step tn mx m ms ts s hroute hdec]
        obtain ⟨ih1, ih2⟩ := ih ts (bump_steps (plan_node tn m s))
        have hbs : (bump_steps (plan_node tn m s)).steps = s.steps + 1 := by
          show (plan_node tn m s).steps + 1 = s.steps + 1
          rw [(plan_node_frame tn m s).2.1]
        refine ⟨?_, ?_⟩
        · show s.steps + (agent_loop tn mx ms ts (bump_steps (plan_node tn m s))).toolCalls.length ≤ mx ∨
            (agent_loop tn mx ms ts (bump_steps (plan_node tn m s))).toolCalls = []
          rcases ih1 with h | h
          · left; rw [hbs] at h; omega
          · right; exact h
        · show ∀ fs, (agent_loop tn mx ms ts (bump_steps (plan_node tn m s))).outcome = .ok fs →
            fs.scratchpad = s.scratchpad ++
              traceOf (agent_loop tn mx ms ts (bump_steps (plan_node tn m s))).toolCalls
          intro fs hfs
          have h2 := ih2 fs hfs
          rw [h2]
          show (plan_node tn m s).scratchpad ++ _ = s.scratchpad ++ _
          rw [(plan_node_frame tn m s).1]
      | some d =>
        cases d with
        | final t => exact absurd (route_of_final mx t (plan_node tn m s) hdec) hroute
        | tool n a =>
          cases htr : ts.headD (.error "no scripted tool result") with
          | error e =>
            rw [agent_loop_act_raise tn mx m ms ts s n a e hroute hdec htr]
            refine ⟨Or.inl ?_, ?_⟩
            · show s.steps + [(⟨n, a, .error e⟩ : ToolCall)].length ≤ mx
              simp only [List.length_singleton]
              omega
            · intro fs hfs
              exact absurd hfs (by simp)
          | ok v =>
            rw [agent_loop_act_ok tn mx m ms ts s n a v hroute hdec htr]
            obtain ⟨ih1, ih2⟩ :=
              ih ts.tail (bump_steps (actSucc (plan_node tn m s) n a v))
            have hbs : (bump_steps (actSucc (plan_node tn m s) n a v)).steps = s.steps + 1 := by
              show (plan_node tn m s).steps + 1 = s.steps + 1
              rw [(plan_node_frame tn m s).2.1]
            refine ⟨?_, ?_⟩
            · show s.steps + ((⟨n, a, .ok v⟩ : ToolCall) ::
                  (agent_loop tn mx ms ts.tail (bump_steps (actSucc (plan_node tn m s) n a v))).toolCalls).length ≤ mx ∨
                (⟨n, a, .ok v⟩ : ToolCall) ::
                  (agent_loop tn mx ms ts.tail (bump_steps (actSucc (plan_node tn m s) n a v))).toolCalls = []
              left
              simp only [List.length_cons]
              rcases ih1 with h | h
              · rw [hbs] at h; omega
              · rw [h]; simp only [List.length_nil]; omega
            · show ∀ fs,
                (agent_loop tn mx ms ts.tail (bump_steps (actSucc (plan_node tn m s) n a v))).outcome = .ok fs →
                fs.scratchpad = s.scratchpad ++ traceOf ((⟨n, a, .ok v⟩ : ToolCall) ::
                  (agent_loop tn mx ms ts.tail (bump_steps (actSucc (plan_node tn m s) n a v))).toolCalls)
              intro fs hfs
              have h2 := ih2 fs hfs
              rw [h2]
              show (plan_node tn m s).scratchpad ++ callObsLine ⟨n, a, .ok v⟩ ++ _ =
                s.scratchpad ++ (callObsLine ⟨n, a, .ok v⟩ ++ _)
              rw [(plan_node_frame tn m s).1, String.append_assoc]
              rfl

/-- C2 witness: the scenario-B run (one successful `calc.add` call, then a
final) ends with the scratchpad holding exactly that call's CALL/OBS pair. -/
theorem C2_witness :
    (initState.steps + scenarioBLoop.toolCalls.length ≤ 6 ∨ scenarioBLoop.toolCalls = []) ∧
    scenarioBFinal.scratchpad = initState.scratchpad ++ traceOf scenarioBLoop.toolCalls :=
  ⟨(C2_theorem [.str "calc.add"] 6 [.ok calcToolText, .ok finalXText] [.ok toolOkResult]
      initState).1,
   (C2_theorem [.str "calc.add"] 6 [.ok calcToolText, .ok finalXText] [.ok toolOkResult]
      initState).2 scenarioBFinal rfl⟩

/-! ## Claim C7 -/

/-- C7 counterexample: a first response of `{"type":"final","final":0}`
makes the run return `""` — not `"0"`, the string conversion of the
present `final` value the claim prescribes (the code applies
`str(obj.get("final") or "")`, collapsing every falsy value). -/
theorem C7_counterexample :
    (run_agent demoMsgs ⟨6, false⟩ (.ok []) [.ok finalZeroText] []).map
      (fun r => (r.answer, r.toolCalls.length)) = .ok ("", 0) ∧
    pyStr (.num 0) = "0" := ⟨rfl, rfl⟩

/-- C7 amended: a run whose first model response is a valid Final decision
returns `str(final or "")` — the string conversion of the `final` value
when that value is truthy, and the empty string when it is absent or falsy
— with exactly one model call and zero tool invocations. -/
theorem C7_theorem (messages : List Obj) (deps : AgentDeps) (fetch : Except String (List Obj))
    (raw q : String) (obj : Obj) (ty : String)
    (ms : List (Except String String)) (ts : List (Except String JValue))
    (hq : _extract_text messages = .ok q) (hne : q ≠ "")
    (hobj : _extract_json_obj (pyStrip raw) = .ok obj)
    (hty : pyGetOr obj "type" (.str "") = .str ty)
    (hfin : pyLower (pyStrip ty) = "final") :
    run_agent messages deps fetch ((.ok raw) :: ms) ts =
      .ok ⟨pyStr (pyGetOr obj "final" (.str "")), (if deps.use_tools then 1 else 0), 1, [],
        some (.ok { initState with decision := some (.final (pyStr (pyGetOr obj "final" (.str "")))) })⟩ := by
  have hdec : ∀ tns, decisionOfText (pyStrip raw) tns =
      some (.final (pyStr (pyGetOr obj "final" (.str "")))) := by
    intro tns
    simp [decisionOfText, hobj, validate_final_eq obj tns ty hty hfin]
  have hplan : ∀ tns : List JValue, plan_node tns (.ok raw) initState =
      { initState with decision := some (.final (pyStr (pyGetOr obj "final" (.str "")))) } :=
    fun tns => plan_node_parsed tns raw initState _ (hdec tns)
  have hloop : ∀ tns : List JValue,
      agent_loop tns deps.max_steps ((.ok raw) :: ms) ts initState =
        ⟨.ok { initState with decision := some (.final (pyStr (pyGetOr obj "final" (.str "")))) }, 1, []⟩ := by
    intro tns
    rw [agent_loop_final_step tns deps.max_steps (.ok raw) ms ts initState
      (route_of_final deps.max_steps _ _ (by rw [hplan tns]))]
    rw [hplan tns]
  simp only [run_agent, hq]
  rw [if_neg hne]
  rw [hloop _]
  simp [finalAnswer]

/-- C7 witness: the scenario-A run — first response
`{"type":"final","final":"X"}` — returns `"X"` with one model call and no
tool call. -/
theorem C7_witness :
    run_agent demoMsgs ⟨6, false⟩ (.ok []) [.ok finalXText] [] =
      .ok ⟨"X", 0, 1, [], some (.ok { initState with decision := some (.final "X") })⟩ :=
  C7_theorem demoMsgs ⟨6, false⟩ (.ok []) finalXText "user: 2+2?"
    [("type", .str "final"), ("final", .str "X")] "final" [] [] rfl (by decide) rfl rfl rfl

/-! ## Claim C3 -/

/-- C3 counterexample: with `max_steps = 1`, after the Act phase whose bump
makes `steps` reach the limit the graph goes back to Plan (a second model
call) instead of terminating — and when that Plan yields
`{"type":"final","final":"X"}` the run returns `"X"`, not the fixed
step-limit message the claim requires. -/
theorem C3_counterexample :
    (run_agent demoMsgs ⟨1, true⟩ (.ok calcCatalog) [.ok calcToolText, .ok finalXText]
        [.ok toolOkResult]).map
      (fun r => (r.answer, r.modelCalls, r.toolCalls.length)) =
      .ok ("X", 2, 1) ∧ ("X" : String) ≠ stepLimitMessage := by
  exact ⟨rfl, by decide⟩

/-- C3 amended: once `steps ≥ max_steps`, the loop runs exactly one more
Plan (one further model call, no further tool call) and terminates on its
decision: a model-produced Final is returned as the answer, and a tool
decision falls through to the fixed step-limit message. -/
theorem C3_theorem (tn : List JValue) (mx : Nat) (m : Except String String)
    (ms : List (Except String String)) (ts : List (Except String JValue)) (s : AgentState)
    (h : mx ≤ s.steps) :
    agent_loop tn mx (m :: ms) ts s = ⟨.ok (plan_node tn m s), 1, []⟩ ∧
    (∀ t, (plan_node tn m s).decision = some (.final t) →
      finalAnswer (agent_loop tn mx (m :: ms) ts s).outcome = t) ∧
    (∀ n a, (plan_node tn m s).decision = some (.tool n a) →
      finalAnswer (agent_loop tn mx (m :: ms) ts s).outcome = stepLimitMessage) := by
  have hsteps : (plan_node tn m s).steps = s.steps := (plan_node_frame tn m s).2.1
  have hroute : route mx (plan_node tn m s) = "final" :=
    route_of_limit mx _ (by rw [hsteps]; exact h)
  have hloop := agent_loop_final_step tn mx m ms ts s hroute
  refine ⟨hloop, ?_, ?_⟩
  · intro t ht; rw [hloop]; simp [finalAnswer, ht]
  · intro n a ht; rw [hloop]; simp [finalAnswer, ht]

/-- C3 witness: at the limit (`steps = max_steps = 1`), one more plan that
answers `{"type":"final","final":"X"}` ends the loop with answer `"X"`,
one model call and no tool call. -/
theorem C3_witness :
    agent_loop [] 1 [.ok finalXText] [] ⟨"", 1, none, none, none⟩ =
      ⟨.ok (plan_node [] (.ok finalXText) ⟨"", 1, none, none, none⟩), 1, []⟩ ∧
    finalAnswer (agent_loop [] 1 [.ok finalXText] [] ⟨"", 1, none, none, none⟩).outcome = "X" :=
  ⟨(C3_theorem [] 1 (.ok finalXText) [] [] ⟨"", 1, none, none, none⟩ (by decide)).1,
   (C3_theorem [] 1 (.ok finalXText) [] [] ⟨"", 1, none, none, none⟩ (by decide)).2.1 "X" rfl⟩

/-! ## Claim C4 -/

/-- C4 counterexample: a model response of plain prose with no JSON makes
the run return THE RAW MODEL TEXT as the answer (with zero tool calls) —
not a short diagnostic distinct from the raw text, as the claim requires. -/
theorem C4_counterexample :
    (run_agent demoMsgs ⟨6, false⟩ (.ok []) [.ok proseText] []).map
      (fun r => (r.answer, r.toolCalls.length)) = .ok (proseText, 0) := by rfl

/-- C4 amended: on any Decision-Parser failure the loop substitutes a
Final carrying the raw (stripped) model text when that text is non-empty,
and the fixed diagnostic only when it is empty; the loop ends at that plan
with one model call and zero tool calls. -/
theorem C4_theorem (tn : List JValue) (mx : Nat) (raw : String)
    (ms : List (Except String String)) (ts : List (Except String JValue)) (s : AgentState)
    (h : decisionOfText (pyStrip raw) tn = none) :
    agent_loop tn mx ((.ok raw) :: ms) ts s =
      ⟨.ok { s with decision := some (.final (if pyStrip raw ≠ "" then pyStrip raw else formatErrorMessage)) }, 1, []⟩ := by
  have hplan := plan_node_unparsed tn raw s h
  rw [agent_loop_final_step tn mx (.ok raw) ms ts s
    (route_of_final mx _ (plan_node tn (.ok raw) s) (by rw [hplan]))]
  rw [hplan]

/-- C4 witness: the plain-prose response ends the loop at the first plan
with the prose itself as the forced final. -/
theorem C4_witness :
    agent_loop [] 6 [.ok proseText] [] initState =
      ⟨.ok { initState with decision := some (.final (if pyStrip proseText ≠ "" then pyStrip proseText else formatErrorMessage)) }, 1, []⟩ :=
  C4_theorem [] 6 proseText [] [] initState rfl

/-! ## Claim C5 -/

/-- C5 counterexample: when `invoke_tool` raises (`"boom"`), the run does
NOT fold the error into a `success:false` observation and continue — the
exception escapes the act node, aborts the graph, and `run_agent` returns
the `Agent执行失败` diagnostic after a single model call (the scripted
follow-up final is never requested). -/
theorem C5_counterexample :
    (run_agent demoMsgs ⟨6, true⟩ (.ok calcCatalog)
        [.ok calcToolText, .ok finalXText] [.error "boom"]).map
      (fun r => (r.answer, r.modelCalls, r.toolCalls.length,
        match r.loopOutcome with | some (.error e) => some e | _ => none)) =
    .ok ("抱歉，Agent执行失败: boom", 1, 1, some "boom") := by rfl

/-- C5 amended: a raised `invoke_tool` exception propagates out of the act
node and aborts the graph; `run_agent` catches it and answers with the
`Agent执行失败` diagnostic — the run does not continue and no observation
is appended (the scratchpad of that run is lost with the aborted state). -/
theorem C5_theorem (tn : List JValue) (mx : Nat) (raw : String) (n : String) (a : Obj)
    (e : String) (ms : List (Except String String)) (ts : List (Except String JValue))
    (s : AgentState)
    (hdec : decisionOfText (pyStrip raw) tn = some (.tool n a))
    (hlt : s.steps < mx) :
    agent_loop tn mx ((.ok raw) :: ms) ((.error e) :: ts) s =
      ⟨.error e, 1, [⟨n, a, .error e⟩]⟩ ∧
    finalAnswer (agent_loop tn mx ((.ok raw) :: ms) ((.error e) :: ts) s).outcome =
      "抱歉，Agent执行失败: " ++ e := by
  have hplan := plan_node_parsed tn raw s (.tool n a) hdec
  have hdec2 : (plan_node tn (.ok raw) s).decision = some (.tool n a) := by rw [hplan]
  have hsteps : (plan_node tn (.ok raw) s).steps = s.steps := (plan_node_frame _ _ s).2.1
  have hroute : route mx (plan_node tn (.ok raw) s) = "act" :=
    route_of_tool mx n a _ hdec2 (by rw [hsteps]; exact hlt)
  have hact : act_node (.error e) (plan_node tn (.ok raw) s) = .error e :=
    act_node_tool_raise n a e _ hdec2
  have hloop : agent_loop tn mx ((.ok raw) :: ms) ((.error e) :: ts) s =
      ⟨.error e, 1, [⟨n, a, .error e⟩]⟩ :=
    agent_loop_act_raise tn mx (.ok raw) ms ((.error e) :: ts) s n a e
      (by rw [hroute]; decide) hdec2 rfl
  exact ⟨hloop, by rw [hloop]; rfl⟩

/-- C5 witness: the catalogued tool decision with a raising collaborator
aborts the loop with the raised error and yields the failure diagnostic. -/
theorem C5_witness :
    agent_loop [.str "calc.add"] 6 [.ok calcToolText] [.error "boom"] initState =
      ⟨.error "boom", 1, [⟨"calc.add", [("a", .num 2), ("b", .num 2)], .error "boom"⟩]⟩ ∧
    finalAnswer (agent_loop [.str "calc.add"] 6 [.ok calcToolText] [.error "boom"] initState).outcome =
      "抱歉，Agent执行失败: " ++ "boom" :=
  C5_theorem [.str "calc.add"] 6 calcToolText "calc.add" [("a", .num 2), ("b", .num 2)]
    "boom" [] [] initState rfl (by decide)

/-! ## Claim C8 -/

/-- C8: a conversation whose flattened text is empty makes `run_agent`
return the empty string at once — no catalog fetch, no model call, no tool
call, no loop. -/
theorem C8_theorem (messages : List Obj) (deps : AgentDeps)
    (fetch : Except String (List Obj)) (ms : List (Except String String))
    (ts : List (Except String JValue))
    (h : _extract_text messages = .ok "") :
    run_agent messages deps fetch ms ts = .ok ⟨"", 0, 0, [], none⟩ := by
  simp [run_agent, h]

/-- C8 witness: the empty conversation returns the empty answer with zero
collaborator invocations. -/
theorem C8_witness :
    run_agent [] ⟨6, true⟩ (.ok calcCatalog) [.ok finalXText] [] = .ok ⟨"", 0, 0, [], none⟩ :=
  C8_theorem [] ⟨6, true⟩ (.ok calcCatalog) [.ok finalXText] [] rfl

/-! ## Claim C9 -/

/-- C9: the claimed max-tools-surfaced truncation does not exist in the
code — the caller (`langchain_service.py:150`) passes a `max_tools`
keyword that `AgentDeps.__init__` does not accept (a `TypeError` at every
agent-path request), and `_compact_tools` keeps all 41 entries of a
41-tool catalog, above the documented default cap of 40. -/
theorem C9_theorem :
    "max_tools" ∈ chatHandlerAgentDepsKwargs ∧
    "max_tools" ∉ agentDepsInitParams ∧
    (_compact_tools manyTools).length = 41 := by
  refine ⟨by decide, by decide, by rfl⟩

/-! ## Claim C10 -/

/-- C10: each node writes only its own state fields — `plan_node` only
`decision`; `act_node` (when it returns a state) only `scratchpad`,
`last_tool` and `last_result`; `bump_steps` only `steps`. -/
theorem C10_theorem :
    (∀ (tn : List JValue) (m : Except String String) (s : AgentState),
      (plan_node tn m s).scratchpad = s.scratchpad ∧ (plan_node tn m s).steps = s.steps ∧
      (plan_node tn m s).last_tool = s.last_tool ∧
      (plan_node tn m s).last_result = s.last_result) ∧
    (∀ (tr : Except String JValue) (s s2 : AgentState), act_node tr s = .ok s2 →
      s2.steps = s.steps ∧ s2.decision = s.decision) ∧
    (∀ s : AgentState, (bump_steps s).scratchpad = s.scratchpad ∧
      (bump_steps s).decision = s.decision ∧ (bump_steps s).last_tool = s.last_tool ∧
      (bump_steps s).last_result = s.last_result ∧ (bump_steps s).steps = s.steps + 1) := by
  refine ⟨plan_node_frame, ?_, fun s => ⟨rfl, rfl, rfl, rfl, rfl⟩⟩
  intro tr s s2 h
  cases hd : s.decision with
  | none =>
    unfold act_node at h
    rw [hd] at h
    injection h with h2
    subst h2
    exact ⟨rfl, hd⟩
  | some d =>
    cases d with
    | final t =>
      unfold act_node at h
      rw [hd] at h
      injection h with h2
      subst h2
      exact ⟨rfl, hd⟩
    | tool n a =>
      obtain ⟨v, htr, hs2⟩ := act_node_tool_ok_inv n a tr s s2 hd h
      subst hs2
      exact ⟨rfl, hd⟩

/-- C10 witness: the act step on a pending `calc.add` decision keeps
`steps` and `decision` unchanged. -/
theorem C10_witness :
    actedState.steps = demoToolState.steps ∧ actedState.decision = demoToolState.decision :=
  C10_theorem.2.1 (.ok toolOkResult) demoToolState actedState rfl

/-- C6 witness: the catalogued name with a truthy non-object `args`
(the number 5) is rejected, and with `args` absent it validates to the
empty-args tool decision. -/
theorem C6_witness :
    _validate_decision [("type", .str "tool"), ("name", .str "calc.add")] [.str "calc.add"] =
      .ok (.tool "calc.add" []) ∧
    _validate_decision
        [("type", .str "tool"), ("name", .str "calc.add"), ("args", .num 5)]
        [.str "calc.add"] =
      .error .argsNotObject :=
  ⟨( C6_theorem "calc.add" (.num 5) [.str "calc.add"] (Or.inr (by rfl))).1,
   ( C6_theorem "calc.add" (.num 5) [.str "calc.add"] (Or.inr (by rfl))).2.2 (by rfl)
     (by intro fields h; cases h)⟩

end Agent
